import Mathlib

/-!
Shallow embedding of the blog-writer authentication / rate-limiting /
realtime-admission core (server/services/AuthService.ts,
server/middleware/RateLimiter.ts, server/services/WebSocketService.ts,
server/utils/ErrorHandler.ts and the Express route handlers in server.ts).

Conventions of the embedding:
- Times (`Date` values) are naturals counting milliseconds; the source
  compares dates with `<`, which compares the underlying numeric time.
- The JavaScript `Map` held by each service is embedded as a function
  from keys to optional values; `Map.get`, `Map.set` and `Map.delete`
  become pointwise lookup, update and erasure.  The deleting iterations
  (`cleanupExpiredTokens`, the delete-all-qr loop) are pointwise filters:
  their effect on the map does not depend on iteration order.
- The source functions are synchronous state transformers; each becomes
  a pure function from the pre-store (plus the current time and, where
  the source draws a fresh `uuidv4`, the fresh value) to a result paired
  with the post-store.
-/

/-- Token kind, the source's string union `'qr' | 'session'`. -/
inductive TokenType where
  | qr
  | session
deriving DecidableEq, Repr

/-- The `Token` record of `server/types` : value, type, expiresAt, createdAt. -/
structure Token where
  value : String
  type : TokenType
  expiresAt : Nat
  createdAt : Nat
deriving DecidableEq, Repr

/-- The token `Map` of `AuthService`, embedded pointwise. -/
def TokenStore : Type := String → Option Token

/-- The empty token store (a fresh `AuthService`). -/
def emptyTokenStore : TokenStore := fun _ => none

/-- `Map.set` on the token store. -/
def mapSet (s : TokenStore) (k : String) (t : Token) : TokenStore :=
  fun k' => if k' = k then some t else s k'

/-- `Map.delete` on the token store. -/
def mapDelete (s : TokenStore) (k : String) : TokenStore :=
  fun k' => if k' = k then none else s k'

/-- `AuthService.cleanupExpiredTokens`: delete every entry with `expiresAt < now`. -/
def cleanupExpiredTokens (s : TokenStore) (now : Nat) : TokenStore :=
  fun k =>
    match s k with
    | some t => if t.expiresAt < now then none else some t
    | none => none

/-- `AuthService.generateQRToken`: insert a fresh qr token with a five-minute
ttl, then run the expired-token cleanup; returns the token value and expiry. -/
def generateQRToken (s : TokenStore) (now : Nat) (fresh : String) :
    (String × Nat) × TokenStore :=
  let expiresAt := now + 5 * 60 * 1000
  let s1 := mapSet s fresh ⟨fresh, TokenType.qr, expiresAt, now⟩
  ((fresh, expiresAt), cleanupExpiredTokens s1 now)

/-- `AuthService.validateQRTokenAndIssueSession`: look the value up; `null` if
absent or not a qr token (store untouched); `null` and delete if expired;
otherwise delete the qr token and insert a fresh session token with a
one-hour ttl, returning its value and expiry. -/
def validateQRTokenAndIssueSession (s : TokenStore) (now : Nat) (fresh : String)
    (qrToken : String) : Option (String × Nat) × TokenStore :=
  match s qrToken with
  | none => (none, s)
  | some token =>
    if token.type ≠ TokenType.qr then
      (none, s)
    else if token.expiresAt < now then
      (none, mapDelete s qrToken)
    else
      let s1 := mapDelete s qrToken
      let expiresAt := now + 60 * 60 * 1000
      (some (fresh, expiresAt),
        mapSet s1 fresh ⟨fresh, TokenType.session, expiresAt, now⟩)

/-- `AuthService.validateSessionToken`: true only if present, of session kind
and not expired; an expired session entry is deleted on access. -/
def validateSessionToken (s : TokenStore) (now : Nat) (sessionToken : String) :
    Bool × TokenStore :=
  match s sessionToken with
  | none => (false, s)
  | some token =>
    if token.type ≠ TokenType.session then
      (false, s)
    else if token.expiresAt < now then
      (false, mapDelete s sessionToken)
    else
      (true, s)

/-- `AuthService.invalidateQRToken`: unconditional delete. -/
def invalidateQRToken (s : TokenStore) (qrToken : String) : TokenStore :=
  mapDelete s qrToken

/-- `AuthService.invalidateAllTokens`: clear the store. -/
def invalidateAllTokens (_s : TokenStore) : TokenStore :=
  emptyTokenStore

/-- Token-store effect of `AuthService.regenerateQRCodeAsync` (the QR-image
rendering is an external collaborator and carries no store state): delete
every token of qr kind, then run `generateQRToken`; returns the new value. -/
def regenerateQRCode (s : TokenStore) (now : Nat) (fresh : String) :
    String × TokenStore :=
  let s1 : TokenStore := fun k =>
    match s k with
    | some t => if t.type = TokenType.qr then none else some t
    | none => none
  let r := generateQRToken s1 now fresh
  (r.1.1, r.2)

/-!
Traces of `AuthService` operations.  Each constructor is one public
store-mutating call; the fresh uuid an operation draws is a parameter.
-/

/-- One public store-mutating call on `AuthService`. -/
inductive AuthOp where
  | genQR (now : Nat) (fresh : String)
  | exchange (now : Nat) (fresh : String) (qrToken : String)
  | valSession (now : Nat) (sessionToken : String)
  | regen (now : Nat) (fresh : String)
  | invalQR (qrToken : String)
  | invalAll
  | cleanup (now : Nat)

/-- Store effect of one `AuthOp`. -/
def applyOp (s : TokenStore) : AuthOp → TokenStore
  | AuthOp.genQR now fresh => (generateQRToken s now fresh).2
  | AuthOp.exchange now fresh qrToken =>
      (validateQRTokenAndIssueSession s now fresh qrToken).2
  | AuthOp.valSession now sessionToken => (validateSessionToken s now sessionToken).2
  | AuthOp.regen now fresh => (regenerateQRCode s now fresh).2
  | AuthOp.invalQR qrToken => invalidateQRToken s qrToken
  | AuthOp.invalAll => invalidateAllTokens s
  | AuthOp.cleanup now => cleanupExpiredTokens s now

/-- Store effect of a sequence of `AuthOp`s, first operation first. -/
def runOps (s : TokenStore) : List AuthOp → TokenStore
  | [] => s
  | op :: ops => runOps (applyOp s op) ops

/-- An operation avoids minting a fresh qr token at value `v`: only
`generateQRToken` and the regeneration insert qr entries, at their fresh
uuid, so the condition constrains just those two constructors. -/
def avoidsFreshQR (v : String) : AuthOp → Prop
  | AuthOp.genQR _ fresh => fresh ≠ v
  | AuthOp.regen _ fresh => fresh ≠ v
  | _ => True

/-- Invariant for one-time use: value `v` is not mapped to a qr token. -/
def notQRAt (v : String) (s : TokenStore) : Prop :=
  ∀ t, s v = some t → t.type ≠ TokenType.qr

/-!
RateLimiter (server/middleware/RateLimiter.ts).
-/

/-- The per-identifier window record of the rate limiter. -/
structure RateLimitEntry where
  count : Nat
  resetAt : Nat
deriving DecidableEq, Repr

/-- The request `Map` of `RateLimiter`, embedded pointwise. -/
def RateStore : Type := String → Option RateLimitEntry

/-- The empty rate store (a fresh `RateLimiter`). -/
def emptyRateStore : RateStore := fun _ => none

/-- `Map.set` on the rate store. -/
def rateSet (s : RateStore) (k : String) (e : RateLimitEntry) : RateStore :=
  fun k' => if k' = k then some e else s k'

/-- Outcome of one pass through the rate-limiter middleware: `next()` with
the remaining-requests header, or a 429 rejection carrying `Retry-After`. -/
inductive GateResult where
  | allow (remaining : Nat)
  | reject (retryAfter : Nat)
deriving DecidableEq, Repr

/-- Whether a gate outcome lets the request through. -/
def GateResult.isAllow : GateResult → Bool
  | GateResult.allow _ => true
  | GateResult.reject _ => false

/-- One invocation of `RateLimiter.middleware()` for `identifier` at time
`now`: take the stored entry unless absent or `resetAt < now` (then start a
fresh window `count := 0, resetAt := now + windowMs`), increment `count`
storing it back, and reject with `Retry-After = ceil((resetAt - now)/1000)`
exactly when the incremented count exceeds `maxRequests`. -/
def rlMiddleware (maxRequests windowMs : Nat) (s : RateStore) (now : Nat)
    (identifier : String) : GateResult × RateStore :=
  let e0 : RateLimitEntry :=
    match s identifier with
    | some e => if e.resetAt < now then ⟨0, now + windowMs⟩ else e
    | none => ⟨0, now + windowMs⟩
  let e1 : RateLimitEntry := ⟨e0.count + 1, e0.resetAt⟩
  let s1 := rateSet s identifier e1
  if maxRequests < e1.count then
    (GateResult.reject ((e1.resetAt - now + 999) / 1000), s1)
  else
    (GateResult.allow (maxRequests - e1.count), s1)

/-- A burst of requests from one identifier, given their arrival times. -/
def runGate (maxRequests windowMs : Nat) (identifier : String) :
    RateStore → List Nat → List GateResult × RateStore
  | s, [] => ([], s)
  | s, t :: ts =>
    let r := rlMiddleware maxRequests windowMs s t identifier
    let rest := runGate maxRequests windowMs identifier r.2 ts
    (r.1 :: rest.1, rest.2)

/-- Reference outcome stream for a burst that stays inside one window whose
reset time is `r`, starting from a stored count of `c` (spec-side companion
of `runGate`, used to state the window-accounting theorem). -/
def gateSpec (maxRequests c r : Nat) : List Nat → List GateResult
  | [] => []
  | t :: ts =>
    (if maxRequests < c + 1 then GateResult.reject ((r - t + 999) / 1000)
     else GateResult.allow (maxRequests - (c + 1))) :: gateSpec maxRequests (c + 1) r ts

/-!
Realtime admission (server/services/WebSocketService.ts, setupMiddleware).
-/

/-- Decision of the socket.io authentication middleware: `next()` with the
`socket.data.authenticated` flag, or `next(Error)`, which refuses the
handshake with the given reason. -/
inductive AdmitDecision where
  | admitted (authenticated : Bool)
  | refused (reason : String)
deriving DecidableEq, Repr

/-- The handshake middleware: `socket.handshake.auth.token` is absent or a
string; the source's `if (!token)` treats the empty string like absence
(JavaScript falsiness).  Without a (truthy) token the connection is admitted
unauthenticated; otherwise it is admitted iff `validateSessionToken` holds,
and refused at handshake time when it does not. -/
def wsHandshake (s : TokenStore) (now : Nat) (authToken : Option String) :
    AdmitDecision × TokenStore :=
  match authToken with
  | none => (AdmitDecision.admitted false, s)
  | some tok =>
    if tok = "" then
      (AdmitDecision.admitted false, s)
    else
      let r := validateSessionToken s now tok
      if r.1 then
        (AdmitDecision.admitted true, r.2)
      else
        (AdmitDecision.refused "Authentication failed: Invalid or expired token", r.2)

/-!
The POST /api/auth/session route handler (server.ts).
-/

/-- Response of the POST /api/auth/session handler, reduced to its status
line and payload. -/
inductive SessionResponse where
  | badRequest
  | unauthorized
  | ok (sessionToken : String) (expiresAt : Nat)
deriving DecidableEq, Repr

/-- HTTP status code of a `SessionResponse`. -/
def SessionResponse.status : SessionResponse → Nat
  | SessionResponse.badRequest => 400
  | SessionResponse.unauthorized => 401
  | SessionResponse.ok _ _ => 200

/-- The POST /api/auth/session handler: 400 when the body carries no (truthy)
`qrToken`; otherwise run the exchange and answer 401 on `null`, 200 with the
session value and expiry on success. -/
def postAuthSession (s : TokenStore) (now : Nat) (fresh : String)
    (qrToken : Option String) : SessionResponse × TokenStore :=
  match qrToken with
  | none => (SessionResponse.badRequest, s)
  | some q =>
    if q = "" then
      (SessionResponse.badRequest, s)
    else
      let r := validateQRTokenAndIssueSession s now fresh q
      match r.1 with
      | none => (SessionResponse.unauthorized, r.2)
      | some (tok, exp) => (SessionResponse.ok tok exp, r.2)

/-!
Error taxonomy (server/utils/ErrorHandler.ts) and the two response surfaces
the claims are about: the global error middleware and the POST /api/config
catch block (server.ts).
-/

/-- Occurrence of `pat` as a contiguous run inside a character list. -/
def containsSub (pat : List Char) : List Char → Bool
  | [] => pat.isEmpty
  | c :: tl => List.isPrefixOf pat (c :: tl) || containsSub pat tl

/-- JavaScript `String.prototype.includes`: true iff `pat` occurs in `s` as
a contiguous substring (tested on the underlying character lists). -/
def strIncludes (s pat : String) : Bool :=
  containsSub pat.data s.data

/-- JavaScript `String.prototype.startsWith`, on the character lists. -/
def strStartsWith (s pat : String) : Bool :=
  List.isPrefixOf pat.data s.data

/-- The `ErrorType` enum of the source. -/
inductive ErrorType where
  | AUTHENTICATION
  | S3
  | FILE_SYSTEM
  | WEBSOCKET
  | NETWORK
  | VALIDATION
  | UNKNOWN
deriving DecidableEq, Repr

/-- A raw JavaScript error reaching the classifier: its `message`, `code`
and `name` fields (absent fields embedded as the empty string, which is
falsy like `undefined` under `||`). -/
structure JSError where
  message : String
  code : String
  name : String
deriving DecidableEq, Repr

/-- The source's `AppError`: classified message, type, retryability, HTTP
status, and the original error when one was wrapped. -/
structure AppError where
  message : String
  type : ErrorType
  retryable : Bool
  statusCode : Nat
  originalError : Option JSError
deriving DecidableEq, Repr

/-- `ErrorClassifier.isS3ErrorRetryable`. -/
def isS3ErrorRetryable (errorCode : String) : Bool :=
  ["RequestTimeout", "RequestTimeoutException", "PriorRequestNotComplete",
   "ConnectionError", "NetworkingError", "ThrottlingException",
   "TooManyRequestsException", "ServiceUnavailable", "SlowDown"].any
    (fun code => strIncludes errorCode code)

/-- `ErrorClassifier.classify` on a raw (not already `AppError`) error:
substring-match the message and code into a classification, keeping the
low-level message as `AppError.message`. -/
def classify (error : JSError) : AppError :=
  let errorMessage := if error.message = "" then "Unknown error occurred" else error.message
  let errorCode := if error.code ≠ "" then error.code
    else if error.name ≠ "" then error.name else ""
  if strIncludes errorMessage "token" || strIncludes errorMessage "auth" ||
      strIncludes errorMessage "unauthorized" || errorCode = "EAUTH" then
    ⟨errorMessage, ErrorType.AUTHENTICATION, false, 401, some error⟩
  else if strIncludes errorMessage "S3" || strIncludes errorMessage "AWS" ||
      strIncludes errorMessage "bucket" || strStartsWith errorCode "S3" then
    let retryable := isS3ErrorRetryable errorCode
    ⟨errorMessage, ErrorType.S3, retryable, if retryable then 503 else 500, some error⟩
  else if errorCode = "ENOENT" || errorCode = "EACCES" || errorCode = "EPERM" ||
      errorCode = "EISDIR" || strIncludes errorMessage "file" ||
      strIncludes errorMessage "directory" then
    ⟨errorMessage, ErrorType.FILE_SYSTEM, false,
      if errorCode = "ENOENT" then 404 else 500, some error⟩
  else if errorCode = "ECONNREFUSED" || errorCode = "ETIMEDOUT" ||
      errorCode = "ENOTFOUND" || errorCode = "ENETUNREACH" ||
      strIncludes errorMessage "network" || strIncludes errorMessage "connection" then
    ⟨errorMessage, ErrorType.NETWORK, true, 503, some error⟩
  else if strIncludes errorMessage "websocket" || strIncludes errorMessage "socket" ||
      errorCode = "WS_ERROR" then
    ⟨errorMessage, ErrorType.WEBSOCKET, true, 503, some error⟩
  else if strIncludes errorMessage "required" || strIncludes errorMessage "invalid" ||
      strIncludes errorMessage "validation" then
    ⟨errorMessage, ErrorType.VALIDATION, false, 400, some error⟩
  else
    ⟨errorMessage, ErrorType.UNKNOWN, false, 500, some error⟩

/-- `ErrorMessageFormatter.formatAuthError`. -/
def formatAuthError (e : AppError) : String :=
  if strIncludes e.message "expired" then
    "Your session has expired. Please scan the QR code again."
  else if strIncludes e.message "invalid" then
    "Invalid authentication. Please scan the QR code again."
  else
    "Authentication failed. Please try again."

/-- `ErrorMessageFormatter.formatS3Error`. -/
def formatS3Error (e : AppError) : String :=
  if strIncludes e.message "credentials" then
    "AWS credentials are invalid. Please check your configuration."
  else if strIncludes e.message "bucket" then
    "S3 bucket not found or inaccessible. Please check your configuration."
  else if strIncludes e.message "permission" then
    "Permission denied. Please check your AWS IAM permissions."
  else if e.retryable then
    "S3 service is temporarily unavailable. Retrying..."
  else
    "Failed to access S3 storage. Please check your configuration."

/-- The `originalError?.code` access of the formatters (an absent original
error reads as the empty string, which matches no code literal, like
`undefined` in the source). -/
def originalCode (e : AppError) : String :=
  match e.originalError with
  | some oe => oe.code
  | none => ""

/-- `ErrorMessageFormatter.formatFileSystemError`: keys on the original
error's `code`. -/
def formatFileSystemError (e : AppError) : String :=
  if originalCode e = "ENOENT" then
    "File not found. Please check the file path."
  else if originalCode e = "EACCES" || originalCode e = "EPERM" then
    "Permission denied. Please check file permissions."
  else if originalCode e = "EISDIR" then
    "Expected a file but found a directory."
  else
    "File system error. Please try again."

/-- `ErrorMessageFormatter.formatWebSocketError`. -/
def formatWebSocketError (e : AppError) : String :=
  if strIncludes e.message "connection" then
    "Connection lost. Reconnecting..."
  else
    "Real-time communication error. Please refresh the page."

/-- `ErrorMessageFormatter.formatNetworkError`: keys on the original error's
`code`. -/
def formatNetworkError (e : AppError) : String :=
  if originalCode e = "ECONNREFUSED" then
    "Cannot connect to server. Please check if the server is running."
  else if originalCode e = "ETIMEDOUT" then
    "Connection timed out. Please check your network connection."
  else if originalCode e = "ENOTFOUND" then
    "Server not found. Please check the URL."
  else
    "Network error. Please check your connection and try again."

/-- `ErrorMessageFormatter.format`: dispatch on the classification; note the
`VALIDATION` branch returns `error.message` itself. -/
def formatMessage (e : AppError) : String :=
  match e.type with
  | ErrorType.AUTHENTICATION => formatAuthError e
  | ErrorType.S3 => formatS3Error e
  | ErrorType.FILE_SYSTEM => formatFileSystemError e
  | ErrorType.WEBSOCKET => formatWebSocketError e
  | ErrorType.NETWORK => formatNetworkError e
  | ErrorType.VALIDATION => e.message
  | ErrorType.UNKNOWN => "An unexpected error occurred. Please try again."

/-- The fixed, externally safe strings the formatter can emit (every literal
of the non-`VALIDATION` branches). -/
def stableMessages : List String :=
  ["Your session has expired. Please scan the QR code again.",
   "Invalid authentication. Please scan the QR code again.",
   "Authentication failed. Please try again.",
   "AWS credentials are invalid. Please check your configuration.",
   "S3 bucket not found or inaccessible. Please check your configuration.",
   "Permission denied. Please check your AWS IAM permissions.",
   "S3 service is temporarily unavailable. Retrying...",
   "Failed to access S3 storage. Please check your configuration.",
   "File not found. Please check the file path.",
   "Permission denied. Please check file permissions.",
   "Expected a file but found a directory.",
   "File system error. Please try again.",
   "Connection lost. Reconnecting...",
   "Real-time communication error. Please refresh the page.",
   "Cannot connect to server. Please check if the server is running.",
   "Connection timed out. Please check your network connection.",
   "Server not found. Please check the URL.",
   "Network error. Please check your connection and try again.",
   "An unexpected error occurred. Please try again."]

/-- Body of the response the global error middleware sends: status from the
classification, `error` from the formatter, plus the type and retry flag
(`ErrorHandler.handle` classifies and logs; the middleware formats). -/
structure ErrorResponseBody where
  status : Nat
  error : String
  type : ErrorType
  retryable : Bool
deriving DecidableEq, Repr

/-- The global error middleware of server.ts applied to a raw error. -/
def globalErrorResponse (err : JSError) : ErrorResponseBody :=
  let appError := classify err
  ⟨appError.statusCode, formatMessage appError, appError.type, appError.retryable⟩

/-- The catch block of the POST /api/config handler: a 500 whose body pairs
the fixed `error` string with a `details` field holding the underlying
error's own message. -/
def configSaveErrorResponse (err : JSError) : Nat × String × String :=
  (500, "Failed to save configuration", err.message)

/-!
Helper lemmas about the stores.
-/

theorem mapSet_apply (s : TokenStore) (k : String) (t : Token) (k' : String) :
    mapSet s k t k' = if k' = k then some t else s k' := rfl

theorem mapDelete_apply (s : TokenStore) (k k' : String) :
    mapDelete s k k' = if k' = k then none else s k' := rfl

theorem cleanup_some (s : TokenStore) (now : Nat) (k : String) (t : Token)
    (h : cleanupExpiredTokens s now k = some t) : s k = some t ∧ ¬ t.expiresAt < now := by
  unfold cleanupExpiredTokens at h
  cases hk : s k with
  | none => rw [hk] at h; cases h
  | some u =>
    rw [hk] at h
    by_cases hu : u.expiresAt < now
    · simp [hu] at h
    · simp [hu] at h
      exact ⟨by rw [← h], by rw [← h]; exact hu⟩

theorem notQRAt_mapDelete (s : TokenStore) (v k : String) (h : notQRAt v s) :
    notQRAt v (mapDelete s k) := by
  intro t ht
  unfold mapDelete at ht
  by_cases hv : v = k
  · simp [hv] at ht
  · rw [if_neg hv] at ht
    exact h t ht

theorem notQRAt_cleanup (s : TokenStore) (v : String) (now : Nat) (h : notQRAt v s) :
    notQRAt v (cleanupExpiredTokens s now) := by
  intro t ht
  exact h t (cleanup_some s now v t ht).1

theorem notQRAt_mapSet_of_ne (s : TokenStore) (v k : String) (t : Token)
    (hk : k ≠ v) (h : notQRAt v s) : notQRAt v (mapSet s k t) := by
  intro u hu
  unfold mapSet at hu
  rw [if_neg (Ne.symm hk)] at hu
  exact h u hu

theorem notQRAt_mapSet_session (s : TokenStore) (v k : String) (val : String)
    (e c : Nat) (h : notQRAt v s) :
    notQRAt v (mapSet s k ⟨val, TokenType.session, e, c⟩) := by
  intro u hu
  unfold mapSet at hu
  by_cases hv : v = k
  · rw [if_pos hv] at hu
    cases hu
    simp
  · rw [if_neg hv] at hu
    exact h u hu

theorem notQRAt_qrFilter (s : TokenStore) (v : String) :
    notQRAt v (fun k =>
      match s k with
      | some t => if t.type = TokenType.qr then none else some t
      | none => none) := by
  intro t ht
  simp only at ht
  cases hk : s v with
  | none => rw [hk] at ht; cases ht
  | some u =>
    rw [hk] at ht
    by_cases hu : u.type = TokenType.qr
    · simp [hu] at ht
    · simp [hu] at ht
      rw [← ht]
      exact hu

theorem notQRAt_applyOp (v : String) (op : AuthOp) (s : TokenStore)
    (h : notQRAt v s) (hav : avoidsFreshQR v op) : notQRAt v (applyOp s op) := by
  cases op with
  | genQR now fresh =>
    show notQRAt v (cleanupExpiredTokens (mapSet s fresh _) now)
    exact notQRAt_cleanup _ _ _ (notQRAt_mapSet_of_ne _ _ _ _ hav h)
  | exchange now fresh q =>
    show notQRAt v (validateQRTokenAndIssueSession s now fresh q).2
    unfold validateQRTokenAndIssueSession
    cases hq : s q with
    | none => exact h
    | some token =>
      by_cases ht : token.type ≠ TokenType.qr
      · simpa [ht] using h
      · by_cases hexp : token.expiresAt < now
        · simpa [ht, hexp] using notQRAt_mapDelete s v q h
        · simpa [ht, hexp] using
            notQRAt_mapSet_session (mapDelete s q) v fresh fresh (now + 60 * 60 * 1000) now
              (notQRAt_mapDelete s v q h)
  | valSession now tok =>
    show notQRAt v (validateSessionToken s now tok).2
    unfold validateSessionToken
    cases htok : s tok with
    | none => exact h
    | some token =>
      by_cases ht : token.type ≠ TokenType.session
      · simpa [ht] using h
      · by_cases hexp : token.expiresAt < now
        · simpa [ht, hexp] using notQRAt_mapDelete s v tok h
        · simpa [ht, hexp] using h
  | regen now fresh =>
    show notQRAt v (cleanupExpiredTokens (mapSet _ fresh _) now)
    exact notQRAt_cleanup _ _ _ (notQRAt_mapSet_of_ne _ _ _ _ hav (notQRAt_qrFilter s v))
  | invalQR q => exact notQRAt_mapDelete s v q h
  | invalAll => intro t ht; cases ht
  | cleanup now => exact notQRAt_cleanup s v now h

theorem notQRAt_runOps (v : String) :
    ∀ (ops : List AuthOp) (s : TokenStore), notQRAt v s →
      (∀ op ∈ ops, avoidsFreshQR v op) → notQRAt v (runOps s ops) := by
  intro ops
  induction ops with
  | nil => intro s h _; exact h
  | cons op ops ih =>
    intro s h hav
    exact ih (applyOp s op)
      (notQRAt_applyOp v op s h (hav op (List.mem_cons_self op ops)))
      (fun o ho => hav o (List.mem_cons_of_mem op ho))

theorem exchange_fst_none_of_notQR (s : TokenStore) (now : Nat) (fresh v : String)
    (h : notQRAt v s) : (validateQRTokenAndIssueSession s now fresh v).1 = none := by
  unfold validateQRTokenAndIssueSession
  cases hv : s v with
  | none => rfl
  | some token =>
    have := h token hv
    simp [this]

theorem exchange_success_eq (s : TokenStore) (now : Nat) (fresh v : String)
    (t : Token) (hv : s v = some t) (htype : t.type = TokenType.qr)
    (hexp : ¬ t.expiresAt < now) :
    validateQRTokenAndIssueSession s now fresh v =
      (some (fresh, now + 60 * 60 * 1000),
        mapSet (mapDelete s v) fresh
          ⟨fresh, TokenType.session, now + 60 * 60 * 1000, now⟩) := by
  unfold validateQRTokenAndIssueSession
  rw [hv]
  simp [htype, hexp]

/-!
Claims.
-/

/-- C1: an unexpired qr token value `v` held by the store is exchangeable
exactly once: `validateQRTokenAndIssueSession` returns the freshly minted
session token (one-hour expiry) on the first call, and every later exchange
of the same value — after any further sequence of `AuthService` operations
whose fresh uuids never re-mint `v` as a qr value — returns `null`, which
the session route surfaces as a 401. -/
theorem qrExchange_succeeds_exactly_once (s : TokenStore) (now : Nat)
    (fresh v : String) (t : Token) (hv : s v = some t)
    (htype : t.type = TokenType.qr) (hexp : ¬ t.expiresAt < now) :
    (validateQRTokenAndIssueSession s now fresh v).1 =
      some (fresh, now + 60 * 60 * 1000) ∧
    ∀ (ops : List AuthOp), (∀ op ∈ ops, avoidsFreshQR v op) →
      ∀ (now' : Nat) (fresh' : String),
        (validateQRTokenAndIssueSession
          (runOps (validateQRTokenAndIssueSession s now fresh v).2 ops)
          now' fresh' v).1 = none := by
  have hsucc := exchange_success_eq s now fresh v t hv htype hexp
  constructor
  · rw [hsucc]
  · intro ops hops now' fresh'
    apply exchange_fst_none_of_notQR
    apply notQRAt_runOps v ops _ _ hops
    rw [hsucc]
    exact notQRAt_mapSet_session (mapDelete s v) v fresh fresh _ _
      (fun u hu => by unfold mapDelete at hu; simp at hu)

/-- Witness for C1 at a concrete store: token "a" (qr, expires 300000) is
exchanged at time 10 yielding session "s"; re-exchange of "a" (directly,
with the empty intervening trace) fails. -/
theorem qrExchange_succeeds_exactly_once_witness :
    (validateQRTokenAndIssueSession
      (mapSet emptyTokenStore "a" ⟨"a", TokenType.qr, 300000, 0⟩) 10 "s" "a").1 =
      some ("s", 10 + 60 * 60 * 1000) ∧
    (validateQRTokenAndIssueSession
      (runOps (validateQRTokenAndIssueSession
        (mapSet emptyTokenStore "a" ⟨"a", TokenType.qr, 300000, 0⟩) 10 "s" "a").2 [])
      20 "z" "a").1 = none := by
  have h := qrExchange_succeeds_exactly_once
    (mapSet emptyTokenStore "a" ⟨"a", TokenType.qr, 300000, 0⟩) 10 "s" "a"
    ⟨"a", TokenType.qr, 300000, 0⟩ (by decide) rfl (by decide)
  exact ⟨h.1, h.2 [] (by simp) 20 "z"⟩

/-- C3: the delete-then-mint step of the exchange is one atomic state
transition of the (single-threaded, suspension-free) store: running two
exchange attempts for the same value in either interleaving order, at most
one succeeds; and the only state a second caller can observe after a
successful exchange already has the session minted and the qr value gone. -/
theorem exchange_delete_mint_atomic (s : TokenStore) (n1 n2 : Nat)
    (f1 f2 v : String) :
    ((validateQRTokenAndIssueSession s n1 f1 v).1.isSome = true →
      (validateQRTokenAndIssueSession
        (validateQRTokenAndIssueSession s n1 f1 v).2 n2 f2 v).1 = none) ∧
    (∀ sv exp, (validateQRTokenAndIssueSession s n1 f1 v).1 = some (sv, exp) →
      (validateQRTokenAndIssueSession s n1 f1 v).2 sv =
        some ⟨sv, TokenType.session, exp, n1⟩ ∧
      (v ≠ sv → (validateQRTokenAndIssueSession s n1 f1 v).2 v = none)) := by
  have hpost : (validateQRTokenAndIssueSession s n1 f1 v).1.isSome = true →
      validateQRTokenAndIssueSession s n1 f1 v =
        (some (f1, n1 + 60 * 60 * 1000),
          mapSet (mapDelete s v) f1
            ⟨f1, TokenType.session, n1 + 60 * 60 * 1000, n1⟩) := by
    intro hs
    unfold validateQRTokenAndIssueSession at hs ⊢
    cases hv : s v with
    | none => rw [hv] at hs; simp at hs
    | some token =>
      rw [hv] at hs
      by_cases ht : token.type ≠ TokenType.qr
      · simp [ht] at hs
      · by_cases hexp : token.expiresAt < n1
        · simp [ht, hexp] at hs
        · simp [ht, hexp]
  constructor
  · intro hs
    rw [hpost hs]
    apply exchange_fst_none_of_notQR
    exact notQRAt_mapSet_session (mapDelete s v) v f1 f1 _ _
      (fun u hu => by unfold mapDelete at hu; simp at hu)
  · intro sv exp hsv
    have hs : (validateQRTokenAndIssueSession s n1 f1 v).1.isSome = true := by
      rw [hsv]; rfl
    have heq := hpost hs
    rw [heq] at hsv
    have hsv1 : sv = f1 ∧ exp = n1 + 60 * 60 * 1000 := by
      simp at hsv
      exact ⟨hsv.1.symm, hsv.2.symm⟩
    obtain ⟨h1, h2⟩ := hsv1
    subst h1; subst h2
    constructor
    · rw [heq]
      unfold mapSet
      simp
    · intro hne
      rw [heq]
      unfold mapSet mapDelete
      simp [hne]

/-- Witness for C3: two back-to-back exchanges of value "a" on a concrete
store; the first succeeds, the second returns none, and the post-state holds
the session at "s" with "a" gone. -/
theorem exchange_delete_mint_atomic_witness :
    (validateQRTokenAndIssueSession
      (validateQRTokenAndIssueSession
        (mapSet emptyTokenStore "a" ⟨"a", TokenType.qr, 300000, 0⟩) 10 "s" "a").2
      15 "s2" "a").1 = none ∧
    (validateQRTokenAndIssueSession
      (mapSet emptyTokenStore "a" ⟨"a", TokenType.qr, 300000, 0⟩) 10 "s" "a").2 "s" =
      some ⟨"s", TokenType.session, 10 + 60 * 60 * 1000, 10⟩ := by
  have h := exchange_delete_mint_atomic
    (mapSet emptyTokenStore "a" ⟨"a", TokenType.qr, 300000, 0⟩) 10 15 "s" "s2" "a"
  exact ⟨h.1 (by decide), (h.2 "s" (10 + 60 * 60 * 1000) (by decide)).1⟩

/-- C5: `validateSessionToken` is true exactly when the value is present, of
session kind and not expired; accessing an expired session entry returns
false and deletes it, and validation is false whenever `now > expiresAt`
regardless of prior access. -/
theorem validateSessionToken_spec (s : TokenStore) (now : Nat) (v : String) :
    ((validateSessionToken s now v).1 = true ↔
      ∃ t, s v = some t ∧ t.type = TokenType.session ∧ ¬ t.expiresAt < now) ∧
    (∀ t, s v = some t → t.type = TokenType.session → t.expiresAt < now →
      validateSessionToken s now v = (false, mapDelete s v)) := by
  constructor
  · unfold validateSessionToken
    cases hv : s v with
    | none => simp [hv]
    | some t =>
      by_cases h1 : t.type = TokenType.session
      · by_cases h2 : t.expiresAt < now
        · simp [hv, h1, h2]
        · simp [hv, h1, h2]
          omega
      · simp [hv, h1]
  · intro t ht h1 h2
    unfold validateSessionToken
    rw [ht]
    simp [h1, h2]

/-- Witness for C5: on a concrete store, an unexpired session validates true,
and an expired one validates false with its entry deleted. -/
theorem validateSessionToken_spec_witness :
    (validateSessionToken (mapSet emptyTokenStore "k" ⟨"k", TokenType.session, 100, 0⟩)
      10 "k").1 = true ∧
    validateSessionToken (mapSet emptyTokenStore "e" ⟨"e", TokenType.session, 5, 0⟩)
      10 "e" =
      (false, mapDelete (mapSet emptyTokenStore "e" ⟨"e", TokenType.session, 5, 0⟩) "e") := by
  constructor
  · exact (validateSessionToken_spec
      (mapSet emptyTokenStore "k" ⟨"k", TokenType.session, 100, 0⟩) 10 "k").1.mpr
      ⟨⟨"k", TokenType.session, 100, 0⟩, by decide, rfl, by decide⟩
  · exact (validateSessionToken_spec
      (mapSet emptyTokenStore "e" ⟨"e", TokenType.session, 5, 0⟩) 10 "e").2
      ⟨"e", TokenType.session, 5, 0⟩ (by decide) rfl (by decide)

/-- C6: the exchange returns the invalid outcome (`null`, store unchanged)
when the value is absent or not of qr kind, returns the expired outcome
(`null`, entry deleted) when the qr token is past its expiry, and either
`null` surfaces through the POST /api/auth/session handler as a 401. -/
theorem exchange_failure_modes (s : TokenStore) (now : Nat) (fresh v : String) :
    (s v = none → validateQRTokenAndIssueSession s now fresh v = (none, s)) ∧
    (∀ t, s v = some t → t.type ≠ TokenType.qr →
      validateQRTokenAndIssueSession s now fresh v = (none, s)) ∧
    (∀ t, s v = some t → t.type = TokenType.qr → t.expiresAt < now →
      validateQRTokenAndIssueSession s now fresh v = (none, mapDelete s v)) ∧
    (∀ q : String, q ≠ "" → (validateQRTokenAndIssueSession s now fresh q).1 = none →
      (postAuthSession s now fresh (some q)).1 = SessionResponse.unauthorized ∧
      (postAuthSession s now fresh (some q)).1.status = 401) := by
  refine ⟨?_, ?_, ?_, ?_⟩
  · intro hv
    unfold validateQRTokenAndIssueSession
    rw [hv]
  · intro t ht htype
    unfold validateQRTokenAndIssueSession
    rw [ht]
    simp [htype]
  · intro t ht htype hexp
    unfold validateQRTokenAndIssueSession
    rw [ht]
    simp [htype, hexp]
  · intro q hq hnone
    have : (postAuthSession s now fresh (some q)).1 = SessionResponse.unauthorized := by
      simp [postAuthSession, hq, hnone]
    exact ⟨this, by rw [this]; rfl⟩

/-- Witness for C6: the three failure shapes at concrete stores — absent
value, wrong kind, expired qr — plus the 401 surfaced by the handler. -/
theorem exchange_failure_modes_witness :
    validateQRTokenAndIssueSession emptyTokenStore 0 "f" "a" = (none, emptyTokenStore) ∧
    (validateQRTokenAndIssueSession
      (mapSet emptyTokenStore "b" ⟨"b", TokenType.qr, 5, 0⟩) 10 "f" "b" =
      (none, mapDelete (mapSet emptyTokenStore "b" ⟨"b", TokenType.qr, 5, 0⟩) "b")) ∧
    (postAuthSession emptyTokenStore 0 "f" (some "a")).1.status = 401 := by
  refine ⟨?_, ?_, ?_⟩
  · exact (exchange_failure_modes emptyTokenStore 0 "f" "a").1 rfl
  · exact (exchange_failure_modes
      (mapSet emptyTokenStore "b" ⟨"b", TokenType.qr, 5, 0⟩) 10 "f" "b").2.2.1
      ⟨"b", TokenType.qr, 5, 0⟩ (by decide) rfl (by decide)
  · exact ((exchange_failure_modes emptyTokenStore 0 "f" "a").2.2.2 "a"
      (by decide) rfl).2

/-- C2 counterexample: a connection that presents the empty string as its
credential has presented a token for which `validateSessionToken` is false,
yet the handshake middleware admits it (the source's `if (!token)` treats
the empty string as absence), so admission is not exactly
`validateSessionToken` for every presented credential. -/
theorem wsHandshake_empty_credential_counterexample :
    (wsHandshake emptyTokenStore 0 (some "")).1 = AdmitDecision.admitted false ∧
    (validateSessionToken emptyTokenStore 0 "").1 = false := by
  constructor
  · rfl
  · rfl

/-- C2 (amended): a connection presenting no credential, or the empty-string
credential (falsy, treated as absence), is admitted in the unauthenticated
primary role; a connection presenting a non-empty credential is admitted
exactly when `validateSessionToken` holds for it and otherwise the handshake
itself is refused — the decision is made in the middleware, before
admission, so an invalid or expired credential is never admitted and then
disconnected. -/
theorem wsHandshake_admission (s : TokenStore) (now : Nat) :
    (wsHandshake s now none).1 = AdmitDecision.admitted false ∧
    (wsHandshake s now (some "")).1 = AdmitDecision.admitted false ∧
    (∀ tok : String, tok ≠ "" →
      wsHandshake s now (some tok) =
        (if (validateSessionToken s now tok).1 then AdmitDecision.admitted true
          else AdmitDecision.refused "Authentication failed: Invalid or expired token",
          (validateSessionToken s now tok).2)) := by
  refine ⟨rfl, rfl, ?_⟩
  intro tok htok
  simp only [wsHandshake]
  rw [if_neg htok]
  by_cases hval : (validateSessionToken s now tok).1
  · simp [hval]
  · simp [hval]

/-- Witness for C2 (amended): on a store holding one live session "k", the
connection presenting "k" is admitted authenticated, and the one presenting
the unknown "bad" credential is refused at handshake time. -/
theorem wsHandshake_admission_witness :
    wsHandshake (mapSet emptyTokenStore "k" ⟨"k", TokenType.session, 100, 0⟩) 10
      (some "k") =
      (AdmitDecision.admitted true,
        (validateSessionToken
          (mapSet emptyTokenStore "k" ⟨"k", TokenType.session, 100, 0⟩) 10 "k").2) ∧
    wsHandshake (mapSet emptyTokenStore "k" ⟨"k", TokenType.session, 100, 0⟩) 10
      (some "bad") =
      (AdmitDecision.refused "Authentication failed: Invalid or expired token",
        (validateSessionToken
          (mapSet emptyTokenStore "k" ⟨"k", TokenType.session, 100, 0⟩) 10 "bad").2) := by
  constructor
  · have h := (wsHandshake_admission
      (mapSet emptyTokenStore "k" ⟨"k", TokenType.session, 100, 0⟩) 10).2.2 "k"
      (by decide)
    rw [h]
    norm_num [show (validateSessionToken
      (mapSet emptyTokenStore "k" ⟨"k", TokenType.session, 100, 0⟩) 10 "k").1 = true
      from by decide]
  · have h := (wsHandshake_admission
      (mapSet emptyTokenStore "k" ⟨"k", TokenType.session, 100, 0⟩) 10).2.2 "bad"
      (by decide)
    rw [h]
    norm_num [show (validateSessionToken
      (mapSet emptyTokenStore "k" ⟨"k", TokenType.session, 100, 0⟩) 10 "bad").1 = false
      from by decide]

theorem rlMiddleware_step_inWindow (limit win : Nat) (id : String) (s : RateStore)
    (c r t : Nat) (hs : s id = some ⟨c, r⟩) (ht : ¬ r < t) :
    rlMiddleware limit win s t id =
      ((if limit < c + 1 then GateResult.reject ((r - t + 999) / 1000)
        else GateResult.allow (limit - (c + 1))), rateSet s id ⟨c + 1, r⟩) := by
  unfold rlMiddleware
  rw [hs]
  simp [ht]
  split <;> rfl

theorem runGate_inWindow (limit win : Nat) (id : String) (r : Nat) :
    ∀ (ts : List Nat) (s : RateStore) (c : Nat), s id = some ⟨c, r⟩ →
      (∀ t ∈ ts, ¬ r < t) →
      (runGate limit win id s ts).1 = gateSpec limit c r ts ∧
      (runGate limit win id s ts).2 id = some ⟨c + ts.length, r⟩ := by
  intro ts
  induction ts with
  | nil => intro s c hs _; exact ⟨rfl, by simpa using hs⟩
  | cons t ts ih =>
    intro s c hs hw
    have hstep := rlMiddleware_step_inWindow limit win id s c r t hs (hw t (by simp))
    have hnext : (rateSet s id ⟨c + 1, r⟩) id = some ⟨c + 1, r⟩ := by simp [rateSet]
    have hih := ih (rateSet s id ⟨c + 1, r⟩) (c + 1) hnext
      (fun u hu => hw u (by simp [hu]))
    have hrun : runGate limit win id s (t :: ts) =
        ((if limit < c + 1 then GateResult.reject ((r - t + 999) / 1000)
          else GateResult.allow (limit - (c + 1))) ::
            (runGate limit win id (rateSet s id ⟨c + 1, r⟩) ts).1,
          (runGate limit win id (rateSet s id ⟨c + 1, r⟩) ts).2) := by
      simp only [runGate]
      rw [hstep]
    refine ⟨?_, ?_⟩
    · rw [hrun]
      simp only [gateSpec]
      rw [hih.1]
    · rw [hrun]
      simp only [List.length_cons]
      rw [show c + (ts.length + 1) = c + 1 + ts.length from by omega]
      exact hih.2

theorem gateSpec_getD (limit r : Nat) :
    ∀ (ts : List Nat) (c i : Nat), i < ts.length →
      (gateSpec limit c r ts).getD i (GateResult.allow 0) =
        if limit < c + i + 1 then GateResult.reject ((r - ts.getD i 0 + 999) / 1000)
        else GateResult.allow (limit - (c + i + 1)) := by
  intro ts
  induction ts with
  | nil => intro c i h; exact absurd h (by simp)
  | cons t ts ih =>
    intro c i h
    cases i with
    | zero => simp [gateSpec]
    | succ j =>
      have hj : j < ts.length := by simpa using h
      simp only [gateSpec, List.getD_cons_succ]
      rw [ih (c + 1) j hj]
      rw [show c + 1 + j + 1 = c + (j + 1) + 1 from by omega]

/-- C4: starting with no entry for the identifier, a burst of requests whose
arrival times all stay at or before the window's reset time `t0 + win` is
allowed for exactly its first `limit` requests (position `i` passes iff
`i < limit`); the `(limit+1)`-th request is rejected — in the source a 429 —
carrying `Retry-After = ceil((windowResetAt - now)/1000)` seconds; and once
the window has elapsed (a request strictly after `t0 + win`), the counter
has reset and the request is allowed again. -/
theorem rateLimiter_window_accounting (limit win : Nat) (s : RateStore)
    (id : String) (t0 : Nat) (ts : List Nat) (hid : s id = none)
    (hts : ∀ t ∈ ts, t ≤ t0 + win) :
    (∀ i, i < ts.length + 1 →
      (((runGate limit win id s (t0 :: ts)).1.getD i (GateResult.allow 0)).isAllow = true ↔
        i < limit)) ∧
    (limit < ts.length + 1 →
      (runGate limit win id s (t0 :: ts)).1.getD limit (GateResult.allow 0) =
        GateResult.reject ((t0 + win - (t0 :: ts).getD limit 0 + 999) / 1000)) ∧
    (∀ now', t0 + win < now' → 0 < limit →
      (rlMiddleware limit win (runGate limit win id s (t0 :: ts)).2 now' id).1 =
        GateResult.allow (limit - 1)) := by
  have hstep0 : rlMiddleware limit win s t0 id =
      ((if limit < 0 + 1 then GateResult.reject ((t0 + win - t0 + 999) / 1000)
        else GateResult.allow (limit - (0 + 1))), rateSet s id ⟨0 + 1, t0 + win⟩) := by
    unfold rlMiddleware
    rw [hid]
    simp
    split <;> rfl
  have hmain := runGate_inWindow limit win id (t0 + win) ts
    (rateSet s id ⟨0 + 1, t0 + win⟩) (0 + 1) (by simp [rateSet])
    (fun t ht => by have := hts t ht; omega)
  have hrun : runGate limit win id s (t0 :: ts) =
      ((if limit < 0 + 1 then GateResult.reject ((t0 + win - t0 + 999) / 1000)
        else GateResult.allow (limit - (0 + 1))) ::
          (runGate limit win id (rateSet s id ⟨0 + 1, t0 + win⟩) ts).1,
        (runGate limit win id (rateSet s id ⟨0 + 1, t0 + win⟩) ts).2) := by
    simp only [runGate]
    rw [hstep0]
  have hrun1 : (runGate limit win id s (t0 :: ts)).1 =
      gateSpec limit 0 (t0 + win) (t0 :: ts) := by
    rw [hrun]
    simp only [gateSpec]
    rw [hmain.1]
  have hrun2 : (runGate limit win id s (t0 :: ts)).2 id =
      some ⟨ts.length + 1, t0 + win⟩ := by
    rw [hrun]
    show (runGate limit win id (rateSet s id ⟨0 + 1, t0 + win⟩) ts).2 id = _
    rw [hmain.2]
    norm_num [Nat.add_comm]
  refine ⟨?_, ?_, ?_⟩
  · intro i hi
    rw [hrun1, gateSpec_getD limit (t0 + win) (t0 :: ts) 0 i (by simpa using hi)]
    by_cases hlim : limit < 0 + i + 1
    · simp only [hlim, ite_true]
      show GateResult.isAllow _ = true ↔ _
      simp [GateResult.isAllow]
      omega
    · simp only [hlim, ite_false]
      show GateResult.isAllow _ = true ↔ _
      simp [GateResult.isAllow]
      omega
  · intro hlt
    rw [hrun1, gateSpec_getD limit (t0 + win) (t0 :: ts) 0 limit (by simpa using hlt)]
    simp
  · intro now' hnow hpos
    unfold rlMiddleware
    rw [hrun2]
    have h1 : (⟨ts.length + 1, t0 + win⟩ : RateLimitEntry).resetAt < now' := hnow
    have h2 : ¬ limit < 0 + 1 := by omega
    simp [h1, h2]

/-- Witness for C4: limit 2, window 60000 ms, requests from "x" at times 5,
10, 20 — the first is allowed, the third (position 2) is rejected with the
ceiling retry-after — and a request at 70000 (past the reset time 60005) is
allowed again with one unit of budget spent. -/
theorem rateLimiter_window_accounting_witness :
    ((runGate 2 60000 "x" emptyRateStore (5 :: [10, 20])).1.getD 0
      (GateResult.allow 0)).isAllow = true ∧
    (runGate 2 60000 "x" emptyRateStore (5 :: [10, 20])).1.getD 2 (GateResult.allow 0) =
      GateResult.reject ((5 + 60000 - (5 :: [10, 20]).getD 2 0 + 999) / 1000) ∧
    (rlMiddleware 2 60000 (runGate 2 60000 "x" emptyRateStore (5 :: [10, 20])).2
      70000 "x").1 = GateResult.allow (2 - 1) := by
  have h := rateLimiter_window_accounting 2 60000 emptyRateStore "x" 5 [10, 20]
    rfl (by decide)
  exact ⟨(h.1 0 (by decide)).mpr (by decide), h.2.1 (by decide),
    h.2.2 70000 (by decide) (by decide)⟩

/-- C7 counterexample: with limit 5 and a 1000 ms window, identifier "x"
makes its first request at time 0 (window resets at 1000); the request
arriving exactly at time 1000 does not start a fresh window — the stored
entry becomes count 2 with the old reset time, because the source resets
only when `resetAt < now` holds strictly. -/
theorem rl_reset_at_boundary_counterexample :
    (rlMiddleware 5 1000 (rlMiddleware 5 1000 emptyRateStore 0 "x").2 1000 "x").2 "x" =
      some ⟨2, 1000⟩ := by
  decide

/-- C7 (amended): one middleware pass stores, for the request's identifier,
a fresh window of count 1 and reset time `now + windowMs` exactly when no
entry existed or the request arrived strictly after the stored reset time;
otherwise — including a request arriving exactly at the reset time — the
count only increases, by one, with the reset time unchanged. -/
theorem rl_window_update (maxRequests windowMs : Nat) (s : RateStore) (now : Nat)
    (id : String) :
    (rlMiddleware maxRequests windowMs s now id).2 id =
      some (match s id with
        | none => ⟨1, now + windowMs⟩
        | some e =>
          if e.resetAt < now then ⟨1, now + windowMs⟩ else ⟨e.count + 1, e.resetAt⟩) := by
  unfold rlMiddleware
  cases h : s id with
  | none => simp [apply_ite Prod.snd, rateSet]
  | some e =>
    by_cases he : e.resetAt < now <;> simp [he, apply_ite Prod.snd, rateSet]

/-- C9: one pass of the rate-limiter middleware for identifier `a` leaves the
window entry of every other identifier `b` — count and reset time alike —
untouched. -/
theorem rateLimiter_identifier_frame (maxRequests windowMs : Nat) (s : RateStore)
    (now : Nat) (a b : String) (h : a ≠ b) :
    (rlMiddleware maxRequests windowMs s now a).2 b = s b := by
  unfold rlMiddleware
  simp [apply_ite Prod.snd, rateSet, Ne.symm h]

/-- Witness for C9: a request from "a" does not create or change an entry
for "b". -/
theorem rateLimiter_identifier_frame_witness :
    (rlMiddleware 5 1000 emptyRateStore 0 "a").2 "b" = emptyRateStore "b" :=
  rateLimiter_identifier_frame 5 1000 emptyRateStore 0 "a" "b" (by decide)

theorem formatAuthError_mem (e : AppError) : formatAuthError e ∈ stableMessages := by
  unfold formatAuthError
  repeat' split
  all_goals decide

theorem formatS3Error_mem (e : AppError) : formatS3Error e ∈ stableMessages := by
  unfold formatS3Error
  repeat' split
  all_goals decide

theorem formatFileSystemError_mem (e : AppError) :
    formatFileSystemError e ∈ stableMessages := by
  unfold formatFileSystemError
  repeat' split
  all_goals decide

theorem formatWebSocketError_mem (e : AppError) :
    formatWebSocketError e ∈ stableMessages := by
  unfold formatWebSocketError
  repeat' split
  all_goals decide

theorem formatNetworkError_mem (e : AppError) :
    formatNetworkError e ∈ stableMessages := by
  unfold formatNetworkError
  repeat' split
  all_goals decide

theorem formatMessage_mem_of_ne_validation (e : AppError)
    (h : e.type ≠ ErrorType.VALIDATION) : formatMessage e ∈ stableMessages := by
  unfold formatMessage
  cases ht : e.type with
  | VALIDATION => exact absurd ht h
  | AUTHENTICATION => exact formatAuthError_mem e
  | S3 => exact formatS3Error_mem e
  | FILE_SYSTEM => exact formatFileSystemError_mem e
  | WEBSOCKET => exact formatWebSocketError_mem e
  | NETWORK => exact formatNetworkError_mem e
  | UNKNOWN =>
    show "An unexpected error occurred. Please try again." ∈ stableMessages
    decide

/-- C8 counterexample: a raw error whose message contains "invalid" is
classified `VALIDATION`, and both the formatter and hence the global error
middleware forward that underlying low-level message verbatim in the
response body; the POST /api/config catch block likewise returns the raw
message in its `details` field. -/
theorem error_message_passthrough_counterexample :
    globalErrorResponse ⟨"invalid signature deadbeef", "", ""⟩ =
      ⟨400, "invalid signature deadbeef", ErrorType.VALIDATION, false⟩ ∧
    (globalErrorResponse ⟨"invalid signature deadbeef", "", ""⟩).error =
      (⟨"invalid signature deadbeef", "", ""⟩ : JSError).message ∧
    (configSaveErrorResponse ⟨"keytar exploded with code 127", "", ""⟩).2.2 =
      (⟨"keytar exploded with code 127", "", ""⟩ : JSError).message := by
  refine ⟨by decide, by decide, rfl⟩

/-- C8 (amended): for every failure surfaced through the global error
middleware whose classification is not `VALIDATION`, the response body's
message is one of the fixed, externally safe formatter strings (never the
underlying error text, which is only logged); `VALIDATION`-classified
failures, and the POST /api/config handler's `details` field, are the
exceptions that echo the underlying message. -/
theorem errorResponse_stable_unless_validation (err : JSError)
    (h : (classify err).type ≠ ErrorType.VALIDATION) :
    (globalErrorResponse err).error ∈ stableMessages :=
  formatMessage_mem_of_ne_validation (classify err) h

/-- Witness for C8 (amended): a completely unclassifiable error surfaces the
fixed unknown-failure string, an element of the safe list. -/
theorem errorResponse_stable_unless_validation_witness :
    (globalErrorResponse ⟨"boom", "", ""⟩).error ∈ stableMessages :=
  errorResponse_stable_unless_validation ⟨"boom", "", ""⟩ (by decide)

/-- C10 counterexample: regeneration runs the expired-token cleanup while
minting the new qr token, so a session token already past its expiry that
was present before the call is deleted rather than left unchanged. -/
theorem regenerate_expired_session_counterexample :
    (mapSet emptyTokenStore "s1" ⟨"s1", TokenType.session, 5, 0⟩) "s1" =
      some ⟨"s1", TokenType.session, 5, 0⟩ ∧
    (regenerateQRCode (mapSet emptyTokenStore "s1" ⟨"s1", TokenType.session, 5, 0⟩)
      10 "q1").2 "s1" = none := by
  constructor
  · rfl
  · decide

/-- C10 (amended): `regenerateQRCode` returns the fresh value and leaves the
store holding exactly the fresh qr token at that value plus every previous
entry that was neither of qr kind nor expired; hence the returned token is
the only qr token in the store, and every unexpired session token present
before the call (at a key other than the fresh uuid) is unchanged — but
expired session tokens are swept away by the cleanup run during generation. -/
theorem regenerate_characterization (s : TokenStore) (now : Nat) (fresh : String) :
    (regenerateQRCode s now fresh).1 = fresh ∧
    (∀ k, (regenerateQRCode s now fresh).2 k =
      if k = fresh then some ⟨fresh, TokenType.qr, now + 5 * 60 * 1000, now⟩
      else
        match s k with
        | some t => if t.type = TokenType.qr ∨ t.expiresAt < now then none else some t
        | none => none) ∧
    (∀ k t, (regenerateQRCode s now fresh).2 k = some t → t.type = TokenType.qr →
      k = fresh) ∧
    (∀ k t, s k = some t → t.type = TokenType.session → ¬ t.expiresAt < now →
      k ≠ fresh → (regenerateQRCode s now fresh).2 k = some t) := by
  have hpt : ∀ k, (regenerateQRCode s now fresh).2 k =
      if k = fresh then some ⟨fresh, TokenType.qr, now + 5 * 60 * 1000, now⟩
      else
        match s k with
        | some t => if t.type = TokenType.qr ∨ t.expiresAt < now then none else some t
        | none => none := by
    intro k
    unfold regenerateQRCode generateQRToken cleanupExpiredTokens mapSet
    by_cases hk : k = fresh
    · simp [hk]
    · simp only [hk, if_neg, ite_false]
      cases hsk : s k with
      | none => simp
      | some t =>
        by_cases h1 : t.type = TokenType.qr
        · simp [h1]
        · by_cases h2 : t.expiresAt < now
          · simp [h1, h2]
          · simp [h1, h2]
  refine ⟨rfl, hpt, ?_, ?_⟩
  · intro k t hk htype
    by_contra hne
    rw [hpt k, if_neg hne] at hk
    cases hsk : s k with
    | none => rw [hsk] at hk; cases hk
    | some u =>
      rw [hsk] at hk
      by_cases h1 : u.type = TokenType.qr ∨ u.expiresAt < now
      · simp [h1] at hk
      · simp [h1] at hk
        subst hk
        exact h1 (Or.inl htype)
  · intro k t hsk htype hexp hne
    rw [hpt k, if_neg hne, hsk]
    have : ¬(t.type = TokenType.qr ∨ t.expiresAt < now) := by
      rintro (h | h)
      · rw [htype] at h; cases h
      · exact hexp h
    simp [this]

/-- Witness for C10 (amended): regenerating over a store holding one live
session "s2" and one stale qr "q0" yields fresh "q1" as the only qr token
and preserves "s2". -/
theorem regenerate_characterization_witness :
    (regenerateQRCode
      (mapSet (mapSet emptyTokenStore "q0" ⟨"q0", TokenType.qr, 400, 0⟩)
        "s2" ⟨"s2", TokenType.session, 900, 0⟩) 10 "q1").2 "s2" =
      some ⟨"s2", TokenType.session, 900, 0⟩ ∧
    (regenerateQRCode
      (mapSet (mapSet emptyTokenStore "q0" ⟨"q0", TokenType.qr, 400, 0⟩)
        "s2" ⟨"s2", TokenType.session, 900, 0⟩) 10 "q1").2 "q0" = none := by
  constructor
  · exact (regenerate_characterization
      (mapSet (mapSet emptyTokenStore "q0" ⟨"q0", TokenType.qr, 400, 0⟩)
        "s2" ⟨"s2", TokenType.session, 900, 0⟩) 10 "q1").2.2.2 "s2"
      ⟨"s2", TokenType.session, 900, 0⟩ (by decide) rfl (by decide) (by decide)
  · rw [(regenerate_characterization
      (mapSet (mapSet emptyTokenStore "q0" ⟨"q0", TokenType.qr, 400, 0⟩)
        "s2" ⟨"s2", TokenType.session, 900, 0⟩) 10 "q1").2.1 "q0"]
    decide




